import Mathlib

/-!
Shallow embedding of the Film-Robo backend (src/backend/server.py).

The pipeline is modelled as pure functions over explicit oracles for the
external effects:
  - the outcome of the OpenAI chat-completions call is a value of type
    Except Unit String (error = missing reply, timeout, provider error;
    ok content = the reply text, "" when the choices list is empty);
  - the outcome of the TMDb discovery call is Except Unit (List TMDbResult);
  - the per-title watch-providers call outcome and the random sample drawn in
    mock mode are indexed by the movie identifier.
Python list(set(xs)) is modelled as List.dedup (deduplication; the claims
treat these values as sets, so the element order of the Python set is not
modelled). The string primitives (lower-casing, split, strip, int
conversion, substring membership) are implemented structurally on character
lists so that every definition evaluates inside the kernel; Python int(s)
is modelled as an optional sign followed by digits (the exotic forms Python
additionally accepts, such as underscore grouping, play no role in any
claim).
-/

namespace FilmRobo

/-- Process configuration: OPENAI_API_KEY (empty string = unset, Python falsy),
whether the openai library imported (AsyncOpenAI is not None), and
TMDB_API_KEY (the literal "PLACEHOLDER" selects mock mode). -/
structure Config where
  openai_api_key : String
  openai_lib : Bool
  tmdb_api_key : String

/-- GENRE_CATEGORIES from server.py, as an association list. -/
def GENRE_CATEGORIES : List (String × List Int) :=
  [("Komödie", [35, 10749]),
   ("Horror/Thriller", [27, 53]),
   ("Kinderfilme", [10751, 16]),
   ("Action/Abenteuer", [28, 12]),
   ("Sci-Fi/Fantasy", [878, 14])]

/-- Dictionary lookup GENRE_CATEGORIES[name] (all used keys are present). -/
def genreLookup (name : String) : List Int :=
  (GENRE_CATEGORIES.lookup name).getD []

/-- Substring test on character lists: Python membership pat in s. -/
def containsCL (pat : List Char) : List Char → Bool
  | [] => pat.isPrefixOf []
  | c :: cs => pat.isPrefixOf (c :: cs) || containsCL pat cs

/-- Python substring membership keyword in lower_prompt. -/
def strContains (s pat : String) : Bool :=
  containsCL pat.data s.data

/-- Python str.lower, character by character (the prompts and keywords of the
source are ASCII apart from already-lower-case umlauts, where both agree). -/
def pyLower (s : String) : String :=
  String.mk (s.data.map Char.toLower)

/-- Python str.split(sep=one character) on character lists. -/
def splitCharCL (sep : Char) : List Char → List (List Char)
  | [] => [[]]
  | c :: cs =>
    if c = sep then [] :: splitCharCL sep cs
    else
      match splitCharCL sep cs with
      | [] => [[c]]
      | t :: ts => (c :: t) :: ts

/-- Python str.strip: drop whitespace from both ends. -/
def trimCL (l : List Char) : List Char :=
  ((l.dropWhile Char.isWhitespace).reverse.dropWhile Char.isWhitespace).reverse

/-- Digit string to number. -/
def natOfDigits (ds : List Char) : Nat :=
  ds.foldl (fun n c => n * 10 + (c.toNat - 48)) 0

/-- Python int(token) for a stripped token: an optional sign followed by at
least one digit; anything else raises (none). -/
def toIntCL? : List Char → Option Int
  | [] => none
  | '-' :: ds =>
    if ds ≠ [] ∧ ds.all Char.isDigit then some (-(natOfDigits ds : Int)) else none
  | '+' :: ds =>
    if ds ≠ [] ∧ ds.all Char.isDigit then some (natOfDigits ds : Int) else none
  | ds =>
    if ds.all Char.isDigit then some (natOfDigits ds : Int) else none

/-- Python list(set(xs)). The claims only use membership and duplicate
freedom, so element order is abstracted. -/
def pySet (xs : List Int) : List Int :=
  xs.dedup

/-- analyze_prompt_fallback from server.py: keyword analysis. -/
def analyze_prompt_fallback (prompt : String) : List Int :=
  let lower_prompt := pyLower prompt
  let found_genres : List Int :=
    (if (["lustig", "lachen", "komödie", "romantisch"].any fun keyword =>
        strContains lower_prompt keyword) then genreLookup "Komödie" else [])
    ++ (if (["gruselig", "angst", "horror", "thriller", "spannend"].any fun keyword =>
        strContains lower_prompt keyword) then genreLookup "Horror/Thriller" else [])
    ++ (if (["kinder", "familie", "animation"].any fun keyword =>
        strContains lower_prompt keyword) then genreLookup "Kinderfilme" else [])
    ++ (if (["kampf", "explosion", "action", "abenteuer", "reise"].any fun keyword =>
        strContains lower_prompt keyword) then genreLookup "Action/Abenteuer" else [])
    ++ (if (["weltraum", "zauber", "fantasie", "science fiction", "alien"].any fun keyword =>
        strContains lower_prompt keyword) then genreLookup "Sci-Fi/Fantasy" else [])
  pySet found_genres

/-- Reply parsing inside analyze_prompt_with_ai: split on commas, strip each
part, int-convert keeping only the convertible parts, then list(set(...)). -/
def parseGenreIds (content : String) : List Int :=
  pySet ((splitCharCL ',' content.data).filterMap fun part => toIntCL? (trimCL part))

/-- The try-block of analyze_prompt_with_ai (the AI classification step
itself, before the except-handler): raises (error) when OPENAI_API_KEY is
unset or the openai library is missing, propagates a failure of the external
chat call, and otherwise parses the reply. The prompt is sent to the
provider; the reply oracle chatReply stands for the provider behaviour. -/
def analyze_prompt_with_ai_core (cfg : Config) (chatReply : Except Unit String)
    (prompt : String) : Except Unit (List Int) :=
  if cfg.openai_api_key = "" ∨ cfg.openai_lib = false then Except.error ()
  else
    match chatReply with
    | Except.error e => Except.error e
    | Except.ok content => Except.ok (parseGenreIds content)

/-- analyze_prompt_with_ai from server.py: the try/except wrapper; any
failure of the AI step falls back to the keyword analysis. -/
def analyze_prompt_with_ai (cfg : Config) (chatReply : Except Unit String)
    (prompt : String) : List Int :=
  match analyze_prompt_with_ai_core cfg chatReply prompt with
  | Except.ok genre_ids => genre_ids
  | Except.error _ => analyze_prompt_fallback prompt

/-- StreamingProvider pydantic model. -/
structure StreamingProvider where
  provider_name : String
  logo_path : Option String := none
deriving DecidableEq

/-- Movie pydantic model. -/
structure Movie where
  title : String
  release_date : Option String := none
  tmdb_id : Int
  poster_url : Option String := none
  overview : Option String := none
  vote_average : Option Float := none
  streaming_providers : List StreamingProvider := []

/-- PromptRequest pydantic model. -/
structure PromptRequest where
  prompt : String

/-- RecommendationResponse pydantic model; used_ai declares default False. -/
structure RecommendationResponse where
  message : String
  requested_genre_ids : List Int
  movies : List Movie
  used_ai : Bool := false

/-- An HTTPException surfaced by the endpoint. -/
structure ServiceError where
  status_code : Nat
  detail : String
deriving DecidableEq

/-- One entry of the flatrate list of the watch-providers reply for region DE
(data.results.DE.flatrate in fetch_streaming_providers; a missing results, DE
or flatrate key is modelled as the empty list in the call outcome). -/
structure WatchProviderEntry where
  provider_name : String
  logo_path : Option String

/-- mock_providers inside fetch_streaming_providers. -/
def mock_providers : List String := ["Netflix", "Amazon Prime", "Disney+", "Sky"]

/-- fetch_streaming_providers from server.py. In mock mode (TMDB_API_KEY =
"PLACEHOLDER") the random draw random.sample(mock_providers,
k=random.randint(1, 3)) is the oracle argument sampled; its contract
(length between 1 and 3, distinct names from mock_providers) is stated as
hypotheses where needed. In credentialed mode watchOutcome is the outcome of
the HTTP call: error covers timeout, transport error and non-2xx status
(raise_for_status); ok carries the DE flatrate list, [] when the region or
the flatrate key is absent. Any failure is caught and becomes []. -/
def fetch_streaming_providers (cfg : Config) (sampled : List String)
    (watchOutcome : Except Unit (List WatchProviderEntry)) :
    List StreamingProvider :=
  if cfg.tmdb_api_key = "PLACEHOLDER" then
    sampled.map fun p => { provider_name := p, logo_path := none }
  else
    match watchOutcome with
    | Except.error _ => []
    | Except.ok flatrate =>
        flatrate.map fun provider =>
          { provider_name := provider.provider_name,
            logo_path := provider.logo_path.map
              fun lp => "https://image.tmdb.org/t/p/w92" ++ lp }

/-- The dict built for one mock movie in fetch_movies_from_tmdb. -/
structure MockMovieData where
  title : String
  release_date : String
  tmdb_id : Int
  overview : String
  vote_average : Float

/-- The i-th mock movie dict (i = 0 .. 9). -/
def mock_movie_data (i : Nat) : MockMovieData :=
  { title := "Simulierter Film " ++ toString (i + 1),
    release_date := "2024-01-01",
    tmdb_id := 1000 + (i : Int),
    overview := "Dies ist ein Platzhalter-Film. Fügen Sie einen TMDb API-Schlüssel hinzu für echte Daten.",
    vote_average := 7.5 + (Float.ofNat i) * 0.1 }

/-- Movie(**movie_data, streaming_providers=providers) in the mock branch. -/
def movieOfMock (m : MockMovieData) (providers : List StreamingProvider) : Movie :=
  { title := m.title,
    release_date := some m.release_date,
    tmdb_id := m.tmdb_id,
    overview := some m.overview,
    vote_average := some m.vote_average,
    streaming_providers := providers }

/-- One element of data.results of the discovery reply. -/
structure TMDbResult where
  id : Int
  title : String
  release_date : Option String
  overview : Option String
  vote_average : Option Float
  poster_path : Option String

/-- The Movie built from one discovery result and its provider list. -/
def movieOfResult (result : TMDbResult) (providers : List StreamingProvider) :
    Movie :=
  { title := result.title,
    release_date := result.release_date,
    tmdb_id := result.id,
    poster_url := result.poster_path.map
      fun poster_path => "https://image.tmdb.org/t/p/w500" ++ poster_path,
    overview := result.overview,
    vote_average := result.vote_average,
    streaming_providers := providers }

/-- The aggregation step of fetch_movies_from_tmdb: one
fetch_streaming_providers task per candidate, gathered in task order
(asyncio.gather returns results in the order the tasks were passed), then
zipped positionally with the candidates. providersFor movieId is the result
of the enrichment call for that title. -/
def enrich_all (providersFor : Int → List StreamingProvider)
    (movie_results : List TMDbResult) : List Movie :=
  let streaming_results := movie_results.map fun result => providersFor result.id
  List.zipWith movieOfResult movie_results streaming_results

/-- fetch_movies_from_tmdb from server.py. discoverOutcome is the outcome of
the discovery HTTP call (error covers transport error and non-2xx status);
sampledFor and watchOutcomeFor are the per-title oracles handed to
fetch_streaming_providers (never failing, per its definition). Only a
discovery failure raises, as HTTPException(500). -/
def fetch_movies_from_tmdb (cfg : Config)
    (discoverOutcome : Except Unit (List TMDbResult))
    (sampledFor : Int → List String)
    (watchOutcomeFor : Int → Except Unit (List WatchProviderEntry)) :
    Except ServiceError (List Movie) :=
  if cfg.tmdb_api_key = "PLACEHOLDER" then
    let mock_movies := (List.range 10).map mock_movie_data
    let streaming_results := mock_movies.map fun movie =>
      fetch_streaming_providers cfg (sampledFor movie.tmdb_id)
        (watchOutcomeFor movie.tmdb_id)
    Except.ok (List.zipWith movieOfMock mock_movies streaming_results)
  else
    match discoverOutcome with
    | Except.error _ =>
        Except.error { status_code := 500,
                       detail := "Fehler bei der TMDb API-Kommunikation" }
    | Except.ok results =>
        let movie_results := results.take 10
        Except.ok (enrich_all
          (fun movieId => fetch_streaming_providers cfg (sampledFor movieId)
            (watchOutcomeFor movieId))
          movie_results)

/-- get_recommendations from server.py (the POST /api/recommend handler). -/
def get_recommendations (cfg : Config) (chatReply : Except Unit String)
    (discoverOutcome : Except Unit (List TMDbResult))
    (sampledFor : Int → List String)
    (watchOutcomeFor : Int → Except Unit (List WatchProviderEntry))
    (request : PromptRequest) : Except ServiceError RecommendationResponse :=
  let genre_ids := analyze_prompt_with_ai cfg chatReply request.prompt
  let used_ai := true
  if genre_ids.isEmpty then
    Except.ok
      { message := "Konnte keine passenden Genres finden. Versuchen Sie es mit: lustig, spannend, Kinder, Action oder Fantasy.",
        requested_genre_ids := [],
        movies := [],
        used_ai := used_ai }
  else
    match fetch_movies_from_tmdb cfg discoverOutcome sampledFor watchOutcomeFor with
    | Except.error e => Except.error e
    | Except.ok movies =>
        Except.ok
          { message := "✓ " ++ toString movies.length ++ " Filme gefunden für Ihre Anfrage!",
            requested_genre_ids := genre_ids,
            movies := movies,
            used_ai := used_ai }

/-! Concrete configurations used by witnesses. -/

/-- No credentials at all: OPENAI_API_KEY unset, openai library missing,
TMDB_API_KEY left at its "PLACEHOLDER" default. -/
def cfgOffline : Config :=
  { openai_api_key := "", openai_lib := false, tmdb_api_key := "PLACEHOLDER" }

/-- OpenAI configured, TMDb in mock mode. -/
def cfgAI : Config :=
  { openai_api_key := "test-key", openai_lib := true, tmdb_api_key := "PLACEHOLDER" }

/-- TMDb credentials configured, no OpenAI. -/
def cfgLive : Config :=
  { openai_api_key := "", openai_lib := false, tmdb_api_key := "tmdb-key" }

/-! Helper lemmas shared by the claim proofs. -/

/-- Zipping a list with a map of itself is a map: the positional join of
task results gathered in task order. -/
theorem zipWith_self_map {α β γ : Type} (f : α → β → γ) (g : α → β) :
    ∀ xs : List α, List.zipWith f xs (xs.map g) = xs.map fun x => f x (g x)
  | [] => rfl
  | x :: xs => by
    simpa using zipWith_self_map f g xs

/-- The aggregation step is a positional map over the candidates. -/
theorem enrich_all_eq_map (providersFor : Int → List StreamingProvider)
    (movie_results : List TMDbResult) :
    enrich_all providersFor movie_results =
      movie_results.map fun result => movieOfResult result (providersFor result.id) := by
  unfold enrich_all
  exact zipWith_self_map _ _ _

/-- Lookup values of the five categories. -/
theorem genreLookup_values :
    genreLookup "Komödie" = [35, 10749] ∧
    genreLookup "Horror/Thriller" = [27, 53] ∧
    genreLookup "Kinderfilme" = [10751, 16] ∧
    genreLookup "Action/Abenteuer" = [28, 12] ∧
    genreLookup "Sci-Fi/Fantasy" = [878, 14] := by
  refine ⟨rfl, rfl, rfl, rfl, rfl⟩

/-! Claim theorems. -/

/-- C6: for every prompt whose lower-cased form contains a Komödie keyword,
the keyword classifier output contains both 35 and 10749; any further
category whose keyword list also matches contributes all of its genre
identifiers (union), and the result carries no duplicates. -/
theorem c6_komoedie_keywords (prompt : String)
    (h : (["lustig", "lachen", "komödie", "romantisch"].any fun keyword =>
      strContains (pyLower prompt) keyword) = true) :
    35 ∈ analyze_prompt_fallback prompt ∧
    10749 ∈ analyze_prompt_fallback prompt ∧
    (analyze_prompt_fallback prompt).Nodup ∧
    ((["gruselig", "angst", "horror", "thriller", "spannend"].any fun keyword =>
        strContains (pyLower prompt) keyword) = true →
      27 ∈ analyze_prompt_fallback prompt ∧ 53 ∈ analyze_prompt_fallback prompt) := by
  refine ⟨?_, ?_, ?_, ?_⟩
  · simp [analyze_prompt_fallback, pySet, List.mem_dedup, h, genreLookup, GENRE_CATEGORIES]
  · simp [analyze_prompt_fallback, pySet, List.mem_dedup, h, genreLookup, GENRE_CATEGORIES]
  · simp only [analyze_prompt_fallback, pySet]
    exact List.nodup_dedup _
  · intro h2
    constructor <;>
      simp [analyze_prompt_fallback, pySet, List.mem_dedup, h2, genreLookup_values.2.1,
        genreLookup_values.1]

/-- C6 witness: the scenario-A prompt matches the Komödie keywords. -/
theorem c6_komoedie_keywords_witness :
    35 ∈ analyze_prompt_fallback "Zeig mir lustige Filme" ∧
    10749 ∈ analyze_prompt_fallback "Zeig mir lustige Filme" := by
  have h := c6_komoedie_keywords "Zeig mir lustige Filme" (by decide)
  exact ⟨h.1, h.2.1⟩

/-- C5: the reply parser deduplicates (no duplicates in its output), an
integer belongs to its output exactly when some comma-separated part of the
reply strips to that integer, and on a successful external call the resolved
set is exactly the parse result: a reply with no usable tokens yields the
empty set without invoking the keyword fallback (the result does not depend
on the prompt). -/
theorem c5_reply_parsing :
    (∀ content : String,
      (parseGenreIds content).Nodup ∧
      ∀ n : Int, n ∈ parseGenreIds content ↔
        ∃ part ∈ splitCharCL ',' content.data, toIntCL? (trimCL part) = some n) ∧
    (∀ (cfg : Config) (content prompt : String),
      cfg.openai_api_key ≠ "" → cfg.openai_lib = true →
      analyze_prompt_with_ai cfg (Except.ok content) prompt = parseGenreIds content) := by
  constructor
  · intro content
    constructor
    · exact List.nodup_dedup _
    · intro n
      simp [parseGenreIds, pySet, List.mem_dedup, List.mem_filterMap]
  · intro cfg content prompt h1 h2
    simp [analyze_prompt_with_ai, analyze_prompt_with_ai_core, h1, h2]

/-- C5 witness: with OpenAI configured, a reply with a stray token parses to
the usable integers only, independently of the prompt. -/
theorem c5_reply_parsing_witness :
    analyze_prompt_with_ai cfgAI (Except.ok " 35 ,x, 35,878") "Zeig mir lustige Filme" =
      parseGenreIds " 35 ,x, 35,878" :=
  c5_reply_parsing.2 cfgAI " 35 ,x, 35,878" "Zeig mir lustige Filme" (by decide) rfl

/-- Every successful endpoint response carries used_ai = true (helper). -/
theorem used_ai_of_ok (cfg : Config) (chatReply : Except Unit String)
    (discoverOutcome : Except Unit (List TMDbResult))
    (sampledFor : Int → List String)
    (watchOutcomeFor : Int → Except Unit (List WatchProviderEntry))
    (request : PromptRequest) (resp : RecommendationResponse)
    (h : get_recommendations cfg chatReply discoverOutcome sampledFor
      watchOutcomeFor request = Except.ok resp) :
    resp.used_ai = true := by
  simp only [get_recommendations] at h
  by_cases he : (analyze_prompt_with_ai cfg chatReply request.prompt).isEmpty
  · rw [if_pos he] at h
    simp only [Except.ok.injEq] at h
    subst h
    rfl
  · rw [if_neg he] at h
    rcases hfetch : fetch_movies_from_tmdb cfg discoverOutcome sampledFor
        watchOutcomeFor with e | movies
    · rw [hfetch] at h
      exact Except.noConfusion h
    · rw [hfetch] at h
      simp only [Except.ok.injEq] at h
      subst h
      rfl

/-- C1: whenever the AI classification step fails, the resolved set is
exactly the keyword classifier result on the same prompt, and every
successful response still reports used_ai = true. -/
theorem c1_ai_failure_falls_back (cfg : Config) (chatReply : Except Unit String)
    (discoverOutcome : Except Unit (List TMDbResult))
    (sampledFor : Int → List String)
    (watchOutcomeFor : Int → Except Unit (List WatchProviderEntry))
    (prompt : String)
    (hfail : analyze_prompt_with_ai_core cfg chatReply prompt = Except.error ()) :
    analyze_prompt_with_ai cfg chatReply prompt = analyze_prompt_fallback prompt ∧
    ∀ resp : RecommendationResponse,
      get_recommendations cfg chatReply discoverOutcome sampledFor watchOutcomeFor
        { prompt := prompt } = Except.ok resp →
      resp.used_ai = true := by
  constructor
  · unfold analyze_prompt_with_ai
    rw [hfail]
  · intro resp h
    exact used_ai_of_ok _ _ _ _ _ _ _ h

/-- C1 witness: with no OpenAI credentials the AI step fails, the resolver
returns the keyword result for the scenario-A prompt, and the concrete
response carries used_ai = true. -/
theorem c1_ai_failure_falls_back_witness :
    analyze_prompt_with_ai cfgOffline (Except.error ()) "Zeig mir lustige Filme" =
      analyze_prompt_fallback "Zeig mir lustige Filme" :=
  (c1_ai_failure_falls_back cfgOffline (Except.error ()) (Except.error ())
    (fun _ => []) (fun _ => Except.error ()) "Zeig mir lustige Filme" rfl).1

/-- C4 counterexample: with credentials present and a successful external
call whose reply contains no token parseable as an integer, the AI
classification step returns the empty set as a value instead of raising a
classification error, contradicting the claim for the unparseable-reply
condition. -/
theorem c4_counterexample_unparseable_reply :
    analyze_prompt_with_ai_core cfgAI (Except.ok "hello world") "egal" =
      Except.ok [] := rfl

/-- C4 (amended): the AI classification step fails exactly when credentials
are absent (key unset or library missing) or the external call fails; a
successful call whose reply cannot be parsed does not raise but yields the
parse result, the empty set. -/
theorem c4_amended_failure_conditions (cfg : Config)
    (chatReply : Except Unit String) (prompt : String) :
    (analyze_prompt_with_ai_core cfg chatReply prompt = Except.error () ↔
      (cfg.openai_api_key = "" ∨ cfg.openai_lib = false ∨
        chatReply = Except.error ())) ∧
    (∀ content : String, cfg.openai_api_key ≠ "" → cfg.openai_lib = true →
      analyze_prompt_with_ai_core cfg (Except.ok content) prompt =
        Except.ok (parseGenreIds content)) := by
  constructor
  · unfold analyze_prompt_with_ai_core
    by_cases hc : cfg.openai_api_key = "" ∨ cfg.openai_lib = false
    · simp only [hc, if_true, true_iff]
      tauto
    · cases chatReply with
      | error e => simp [hc]
      | ok content => simp [hc]
  · intro content h1 h2
    simp [analyze_prompt_with_ai_core, h1, h2]

/-- C4 amended witness: with the library missing the step fails, and with
credentials present an unparseable reply yields the empty parse result. -/
theorem c4_amended_failure_conditions_witness :
    analyze_prompt_with_ai_core cfgOffline (Except.ok "35") "egal" = Except.error () ∧
    analyze_prompt_with_ai_core cfgAI (Except.ok "no numbers here") "egal" =
      Except.ok (parseGenreIds "no numbers here") :=
  ⟨(c4_amended_failure_conditions cfgOffline (Except.ok "35") "egal").1.mpr
      (Or.inl rfl),
   (c4_amended_failure_conditions cfgAI (Except.ok "no numbers here") "egal").2
      "no numbers here" (by decide) rfl⟩

/-- C7: when the AI step yields the empty set or fails and the keyword
classifier is also empty, the endpoint returns the informational response
with empty genre and movie lists, for every discovery and enrichment oracle
(so the discovery call is never consulted), raising no error. -/
theorem c7_empty_intent (cfg : Config) (chatReply : Except Unit String)
    (prompt : String)
    (hai : analyze_prompt_with_ai_core cfg chatReply prompt = Except.ok [] ∨
      analyze_prompt_with_ai_core cfg chatReply prompt = Except.error ())
    (hfb : analyze_prompt_fallback prompt = []) :
    ∀ (discoverOutcome : Except Unit (List TMDbResult))
      (sampledFor : Int → List String)
      (watchOutcomeFor : Int → Except Unit (List WatchProviderEntry)),
      get_recommendations cfg chatReply discoverOutcome sampledFor watchOutcomeFor
          { prompt := prompt } =
        Except.ok
          { message := "Konnte keine passenden Genres finden. Versuchen Sie es mit: lustig, spannend, Kinder, Action oder Fantasy.",
            requested_genre_ids := [],
            movies := [],
            used_ai := true } := by
  have hres : analyze_prompt_with_ai cfg chatReply prompt = [] := by
    unfold analyze_prompt_with_ai
    rcases hai with h | h <;> rw [h]
    exact hfb
  intro discoverOutcome sampledFor watchOutcomeFor
  simp [get_recommendations, hres]

/-- C7 witness: the scenario-B prompt with the AI step failing for lack of
credentials produces exactly the informational empty response. -/
theorem c7_empty_intent_witness :
    get_recommendations cfgOffline (Except.error ()) (Except.error ())
        (fun _ => []) (fun _ => Except.error ()) { prompt := "asdkfjasldkf" } =
      Except.ok
        { message := "Konnte keine passenden Genres finden. Versuchen Sie es mit: lustig, spannend, Kinder, Action oder Fantasy.",
          requested_genre_ids := [],
          movies := [],
          used_ai := true } :=
  c7_empty_intent cfgOffline (Except.error ()) "asdkfjasldkf" (Or.inr rfl)
    (by decide) (Except.error ()) (fun _ => []) (fun _ => Except.error ())

/-- C9: every response the endpoint actually returns has used_ai = true,
for every configuration and every oracle outcome, although the model field
declares default false. -/
theorem c9_used_ai_never_default :
    (∀ (cfg : Config) (chatReply : Except Unit String)
        (discoverOutcome : Except Unit (List TMDbResult))
        (sampledFor : Int → List String)
        (watchOutcomeFor : Int → Except Unit (List WatchProviderEntry))
        (request : PromptRequest) (resp : RecommendationResponse),
      get_recommendations cfg chatReply discoverOutcome sampledFor watchOutcomeFor
          request = Except.ok resp →
      resp.used_ai = true) ∧
    ({ message := "", requested_genre_ids := [], movies := [] }
        : RecommendationResponse).used_ai = false := by
  constructor
  · intro cfg chatReply discoverOutcome sampledFor watchOutcomeFor request resp h
    exact used_ai_of_ok _ _ _ _ _ _ _ h
  · rfl

/-- C9 witness: the concrete empty-intent response of an offline run has
used_ai = true. -/
theorem c9_used_ai_never_default_witness :
    ({ message := "Konnte keine passenden Genres finden. Versuchen Sie es mit: lustig, spannend, Kinder, Action oder Fantasy.",
        requested_genre_ids := [],
        movies := [],
        used_ai := true } : RecommendationResponse).used_ai = true :=
  c9_used_ai_never_default.1 cfgOffline (Except.error ()) (Except.error ())
    (fun _ => []) (fun _ => Except.error ()) { prompt := "asdkfjasldkf" } _ rfl

/-- C2: the aggregation step keeps the candidate list's length and order:
position i of the output is candidate i joined with the provider list of
enrichment call i, never depending on completion order (gather returns
results in task order and the join is positional). -/
theorem c2_enrichment_order_preserving
    (providersFor : Int → List StreamingProvider)
    (candidates : List TMDbResult) :
    (enrich_all providersFor candidates).length = candidates.length ∧
    ∀ i : Nat,
      (enrich_all providersFor candidates)[i]? =
        (candidates[i]?).map fun result =>
          movieOfResult result (providersFor result.id) := by
  rw [enrich_all_eq_map]
  exact ⟨List.length_map _ _, fun i => List.getElem?_map _ _ _⟩

/-- Discovery succeeds when TMDb is in mock mode or the discovery call
returns successfully (helper). -/
theorem fetch_ok_of (cfg : Config) (discoverOutcome : Except Unit (List TMDbResult))
    (sampledFor : Int → List String)
    (watchOutcomeFor : Int → Except Unit (List WatchProviderEntry))
    (h : cfg.tmdb_api_key = "PLACEHOLDER" ∨
      ∃ results, discoverOutcome = Except.ok results) :
    ∃ movies, fetch_movies_from_tmdb cfg discoverOutcome sampledFor
      watchOutcomeFor = Except.ok movies := by
  unfold fetch_movies_from_tmdb
  by_cases hm : cfg.tmdb_api_key = "PLACEHOLDER"
  · rw [if_pos hm]
    exact ⟨_, rfl⟩
  · rw [if_neg hm]
    rcases h with h | ⟨results, rfl⟩
    · exact absurd h hm
    · exact ⟨_, rfl⟩

/-- C3: with TMDb credentials configured and the resolved genre set
nonempty (so discovery runs), a failing discovery call fails the whole
request with the single 500 service error and no payload; conversely,
whenever discovery does not fail (mock mode or a successful call), the
request returns a payload for every classifier and enrichment outcome, so
discovery is the only pipeline step whose failure escapes. -/
theorem c3_discovery_failure_fatal :
    (∀ (cfg : Config) (chatReply : Except Unit String)
        (sampledFor : Int → List String)
        (watchOutcomeFor : Int → Except Unit (List WatchProviderEntry))
        (request : PromptRequest),
      cfg.tmdb_api_key ≠ "PLACEHOLDER" →
      analyze_prompt_with_ai cfg chatReply request.prompt ≠ [] →
      get_recommendations cfg chatReply (Except.error ()) sampledFor
          watchOutcomeFor request =
        Except.error { status_code := 500,
                       detail := "Fehler bei der TMDb API-Kommunikation" }) ∧
    (∀ (cfg : Config) (chatReply : Except Unit String)
        (discoverOutcome : Except Unit (List TMDbResult))
        (sampledFor : Int → List String)
        (watchOutcomeFor : Int → Except Unit (List WatchProviderEntry))
        (request : PromptRequest),
      (cfg.tmdb_api_key = "PLACEHOLDER" ∨
        ∃ results, discoverOutcome = Except.ok results) →
      ∃ resp, get_recommendations cfg chatReply discoverOutcome sampledFor
        watchOutcomeFor request = Except.ok resp) := by
  constructor
  · intro cfg chatReply sampledFor watchOutcomeFor request hkey hne
    have he : (analyze_prompt_with_ai cfg chatReply request.prompt).isEmpty = false := by
      simpa [List.isEmpty_iff] using hne
    have hfetch : fetch_movies_from_tmdb cfg (Except.error ()) sampledFor
        watchOutcomeFor =
        Except.error { status_code := 500,
                       detail := "Fehler bei der TMDb API-Kommunikation" } := by
      unfold fetch_movies_from_tmdb
      rw [if_neg hkey]
    simp [get_recommendations, he, hfetch]
  · intro cfg chatReply discoverOutcome sampledFor watchOutcomeFor request h
    rcases hg : get_recommendations cfg chatReply discoverOutcome sampledFor
        watchOutcomeFor request with e | resp
    · exfalso
      by_cases he : (analyze_prompt_with_ai cfg chatReply request.prompt).isEmpty
      · simp [get_recommendations, he] at hg
      · obtain ⟨movies, hfetch⟩ :=
          fetch_ok_of cfg discoverOutcome sampledFor watchOutcomeFor h
        simp [get_recommendations, he, hfetch] at hg
    · exact ⟨resp, rfl⟩

/-- C3 witness: with a TMDb key configured and the scenario-A prompt
resolved through the keyword fallback, a failed discovery call yields
exactly the 500 service error, while a successful empty discovery yields a
payload. -/
theorem c3_discovery_failure_fatal_witness :
    get_recommendations cfgLive (Except.error ()) (Except.error ())
        (fun _ => []) (fun _ => Except.error ()) { prompt := "Zeig mir lustige Filme" } =
      Except.error { status_code := 500,
                     detail := "Fehler bei der TMDb API-Kommunikation" } ∧
    ∃ resp, get_recommendations cfgLive (Except.error ()) (Except.ok [])
        (fun _ => []) (fun _ => Except.error ()) { prompt := "Zeig mir lustige Filme" } =
      Except.ok resp :=
  ⟨c3_discovery_failure_fatal.1 cfgLive (Except.error ()) (fun _ => [])
      (fun _ => Except.error ()) { prompt := "Zeig mir lustige Filme" }
      (by decide) (by decide),
   c3_discovery_failure_fatal.2 cfgLive (Except.error ()) (Except.ok [])
      (fun _ => []) (fun _ => Except.error ()) { prompt := "Zeig mir lustige Filme" }
      (Or.inr ⟨[], rfl⟩)⟩

/-- C8: without TMDb credentials the discovery operation succeeds with
exactly the 10 placeholder titles, identifiers 1000 .. 1009, strictly
increasing, for every oracle outcome. -/
theorem c8_offline_placeholders (cfg : Config)
    (discoverOutcome : Except Unit (List TMDbResult))
    (sampledFor : Int → List String)
    (watchOutcomeFor : Int → Except Unit (List WatchProviderEntry))
    (h : cfg.tmdb_api_key = "PLACEHOLDER") :
    ∃ movies, fetch_movies_from_tmdb cfg discoverOutcome sampledFor
        watchOutcomeFor = Except.ok movies ∧
      movies.length = 10 ∧
      movies.map Movie.tmdb_id =
        [1000, 1001, 1002, 1003, 1004, 1005, 1006, 1007, 1008, 1009] ∧
      (movies.map Movie.tmdb_id).Pairwise fun a b => a < b := by
  have hfetch : fetch_movies_from_tmdb cfg discoverOutcome sampledFor
      watchOutcomeFor =
      Except.ok (List.zipWith movieOfMock ((List.range 10).map mock_movie_data)
        (((List.range 10).map mock_movie_data).map fun movie =>
          fetch_streaming_providers cfg (sampledFor movie.tmdb_id)
            (watchOutcomeFor movie.tmdb_id))) := by
    unfold fetch_movies_from_tmdb
    rw [if_pos h]
  refine ⟨_, hfetch, ?_, ?_, ?_⟩
  · rfl
  · rfl
  · have hids : (List.zipWith movieOfMock ((List.range 10).map mock_movie_data)
        (((List.range 10).map mock_movie_data).map fun movie =>
          fetch_streaming_providers cfg (sampledFor movie.tmdb_id)
            (watchOutcomeFor movie.tmdb_id))).map Movie.tmdb_id =
        [1000, 1001, 1002, 1003, 1004, 1005, 1006, 1007, 1008, 1009] := rfl
    rw [hids]
    decide

/-- C8 witness: the offline configuration with failing oracles still yields
the 10 strictly increasing placeholder identifiers. -/
theorem c8_offline_placeholders_witness :
    ∃ movies, fetch_movies_from_tmdb cfgOffline (Except.error ())
        (fun _ => ["Netflix"]) (fun _ => Except.error ()) = Except.ok movies ∧
      movies.length = 10 ∧
      movies.map Movie.tmdb_id =
        [1000, 1001, 1002, 1003, 1004, 1005, 1006, 1007, 1008, 1009] ∧
      (movies.map Movie.tmdb_id).Pairwise fun a b => a < b :=
  c8_offline_placeholders cfgOffline (Except.error ()) (fun _ => ["Netflix"])
    (fun _ => Except.error ()) rfl

/-- C10: under the contract of the mock random draw (1 to 3 distinct names
from the fixed provider list), the uncredentialed enrichment result has
between 1 and 3 providers, all drawn from that list, and is never empty;
the credentialed path by contrast returns the empty list on a failed call. -/
theorem c10_mock_enrichment_nonempty (sampled : List String) (k : Nat)
    (hk1 : 1 ≤ k) (hk3 : k ≤ 3) (hlen : sampled.length = k)
    (hmem : ∀ p ∈ sampled, p ∈ mock_providers) (hnd : sampled.Nodup) :
    (∀ (cfg : Config) (watchOutcome : Except Unit (List WatchProviderEntry)),
      cfg.tmdb_api_key = "PLACEHOLDER" →
      1 ≤ (fetch_streaming_providers cfg sampled watchOutcome).length ∧
      (fetch_streaming_providers cfg sampled watchOutcome).length ≤ 3 ∧
      fetch_streaming_providers cfg sampled watchOutcome ≠ [] ∧
      ∀ sp ∈ fetch_streaming_providers cfg sampled watchOutcome,
        sp.provider_name ∈ mock_providers) ∧
    (∀ cfg : Config, cfg.tmdb_api_key ≠ "PLACEHOLDER" →
      fetch_streaming_providers cfg sampled (Except.error ()) = []) := by
  constructor
  · intro cfg watchOutcome hcfg
    have hres : fetch_streaming_providers cfg sampled watchOutcome =
        sampled.map fun p => { provider_name := p, logo_path := none } := by
      unfold fetch_streaming_providers
      rw [if_pos hcfg]
    rw [hres]
    refine ⟨?_, ?_, ?_, ?_⟩
    · rw [List.length_map, hlen]
      exact hk1
    · rw [List.length_map, hlen]
      exact hk3
    · have hne : sampled ≠ [] := by
        intro hnil
        rw [hnil] at hlen
        simp at hlen
        omega
      simpa using hne
    · intro sp hsp
      obtain ⟨p, hp, rfl⟩ := List.mem_map.mp hsp
      exact hmem p hp
  · intro cfg hcfg
    unfold fetch_streaming_providers
    rw [if_neg hcfg]

/-- C10 witness: a singleton draw from the provider list is a valid sample
and yields a nonempty mock result, while the credentialed path with a failed
call yields the empty list. -/
theorem c10_mock_enrichment_nonempty_witness :
    fetch_streaming_providers cfgOffline ["Netflix"] (Except.error ()) ≠ [] ∧
    fetch_streaming_providers cfgLive ["Netflix"] (Except.error ()) = [] :=
  ⟨((c10_mock_enrichment_nonempty ["Netflix"] 1 (by decide) (by decide) rfl
      (by decide) (by decide)).1 cfgOffline (Except.error ()) rfl).2.2.1,
   (c10_mock_enrichment_nonempty ["Netflix"] 1 (by decide) (by decide) rfl
      (by decide) (by decide)).2 cfgLive (by decide)⟩

end FilmRobo
